import Mathlib

/-!
# Market breadth application: shallow embedding

A shallow embedding of the three source files of the repository
`top-150-breadth-v1` (`src/app.py`, `src/modules/data_loader.py`,
`src/modules/google_docs_uploader.py`), together with theorems settling the
frozen claims about them.

Modelling conventions:
* a pandas cell that may be `NaN` is an `Option ℚ`; arithmetic on such cells
  propagates `none` exactly as pandas propagates `NaN`;
* trading dates are natural numbers (the code only compares and sorts them);
* a Python function that may raise is an `Except String` value;
* the network fetches performed by the loaders are parameters of the Lean
  functions: each attempted fetch is an `Option` of a data frame, `none`
  standing for an exception or a `None` return.
-/

namespace Breadth

/-- pandas-style addition of two possibly-`NaN` cells: `NaN` propagates. -/
def optAdd : Option ℚ → Option ℚ → Option ℚ
  | some a, some b => some (a + b)
  | _, _ => none

/-- pandas-style division of a possibly-`NaN` cell by a literal constant. -/
def optDivC (o : Option ℚ) (c : ℚ) : Option ℚ :=
  o.map (· / c)

@[simp] theorem optAdd_some_some (a b : ℚ) : optAdd (some a) (some b) = some (a + b) := rfl

@[simp] theorem optAdd_none_left (o : Option ℚ) : optAdd none o = none := rfl

@[simp] theorem optAdd_none_right (o : Option ℚ) : optAdd o none = none := by
  cases o <;> rfl

@[simp] theorem optDivC_none (c : ℚ) : optDivC none c = none := rfl

@[simp] theorem optDivC_some (a c : ℚ) : optDivC (some a) c = some (a / c) := rfl

/-- One row of `df_filtered` restricted to the six columns that
`app.py` lines 174–181 read when building the `Avg_RSI_Breadth` column. -/
structure ResultRow where
  vnindex_RSI_21 : Option ℚ
  vnindex_RSI_70 : Option ℚ
  mfi_15D_RSI_21 : Option ℚ
  nhnl_15D_RSI_21 : Option ℚ
  ad_15D_RSI_21 : Option ℚ
  breadth_Above_MA50 : Option ℚ

/-- Lines 174–181 of `app.py`: the `Avg_RSI_Breadth` ("Score") cell of a row,
the pandas sum of the six oscillator cells divided by 6. -/
def Avg_RSI_Breadth (r : ResultRow) : Option ℚ :=
  optDivC
    (optAdd (optAdd (optAdd (optAdd (optAdd
      r.vnindex_RSI_21 r.vnindex_RSI_70)
      r.mfi_15D_RSI_21) r.nhnl_15D_RSI_21) r.ad_15D_RSI_21)
      r.breadth_Above_MA50) 6

/-- The Score cell is `some s` exactly when all six inputs are defined and
`s` is their arithmetic mean. -/
theorem Avg_RSI_Breadth_eq_some_iff (r : ResultRow) (s : ℚ) :
    Avg_RSI_Breadth r = some s ↔
      ∃ a b c d e f : ℚ,
        r.vnindex_RSI_21 = some a ∧ r.vnindex_RSI_70 = some b ∧
        r.mfi_15D_RSI_21 = some c ∧ r.nhnl_15D_RSI_21 = some d ∧
        r.ad_15D_RSI_21 = some e ∧ r.breadth_Above_MA50 = some f ∧
        s = (a + b + c + d + e + f) / 6 := by
  obtain ⟨o1, o2, o3, o4, o5, o6⟩ := r
  cases o1 <;> cases o2 <;> cases o3 <;> cases o4 <;> cases o5 <;> cases o6 <;>
    simp [Avg_RSI_Breadth, eq_comm]

/-- The Score cell is `NaN` exactly when one of the six inputs is `NaN`. -/
theorem Avg_RSI_Breadth_eq_none_iff (r : ResultRow) :
    Avg_RSI_Breadth r = none ↔
      (r.vnindex_RSI_21 = none ∨ r.vnindex_RSI_70 = none ∨
       r.mfi_15D_RSI_21 = none ∨ r.nhnl_15D_RSI_21 = none ∨
       r.ad_15D_RSI_21 = none ∨ r.breadth_Above_MA50 = none) := by
  obtain ⟨o1, o2, o3, o4, o5, o6⟩ := r
  cases o1 <;> cases o2 <;> cases o3 <;> cases o4 <;> cases o5 <;> cases o6 <;>
    simp [Avg_RSI_Breadth]

/-- C1: for every row, the composite Score equals the arithmetic mean of the
six oscillator values when all six are defined, and is undefined whenever any
of the six inputs is undefined (no partial averaging). -/
theorem score_is_mean_of_six_or_undefined (r : ResultRow) :
    (∀ s : ℚ, Avg_RSI_Breadth r = some s ↔
      ∃ a b c d e f : ℚ,
        r.vnindex_RSI_21 = some a ∧ r.vnindex_RSI_70 = some b ∧
        r.mfi_15D_RSI_21 = some c ∧ r.nhnl_15D_RSI_21 = some d ∧
        r.ad_15D_RSI_21 = some e ∧ r.breadth_Above_MA50 = some f ∧
        s = (a + b + c + d + e + f) / 6) ∧
    (Avg_RSI_Breadth r = none ↔
      (r.vnindex_RSI_21 = none ∨ r.vnindex_RSI_70 = none ∨
       r.mfi_15D_RSI_21 = none ∨ r.nhnl_15D_RSI_21 = none ∨
       r.ad_15D_RSI_21 = none ∨ r.breadth_Above_MA50 = none)) :=
  ⟨fun s => Avg_RSI_Breadth_eq_some_iff r s, Avg_RSI_Breadth_eq_none_iff r⟩

/-- C8: whenever the Score is defined and each of the six averaged inputs lies
in [0, 100], the Score lies in [0, 100]. -/
theorem score_in_unit_interval (r : ResultRow) (s : ℚ)
    (h : Avg_RSI_Breadth r = some s)
    (hb : ∀ v : ℚ,
      (r.vnindex_RSI_21 = some v ∨ r.vnindex_RSI_70 = some v ∨
       r.mfi_15D_RSI_21 = some v ∨ r.nhnl_15D_RSI_21 = some v ∨
       r.ad_15D_RSI_21 = some v ∨ r.breadth_Above_MA50 = some v) →
      0 ≤ v ∧ v ≤ 100) :
    0 ≤ s ∧ s ≤ 100 := by
  obtain ⟨a, b, c, d, e, f, h1, h2, h3, h4, h5, h6, hs⟩ :=
    (Avg_RSI_Breadth_eq_some_iff r s).mp h
  obtain ⟨ha0, ha1⟩ := hb a (Or.inl h1)
  obtain ⟨hb0, hb1⟩ := hb b (Or.inr (Or.inl h2))
  obtain ⟨hc0, hc1⟩ := hb c (Or.inr (Or.inr (Or.inl h3)))
  obtain ⟨hd0, hd1⟩ := hb d (Or.inr (Or.inr (Or.inr (Or.inl h4))))
  obtain ⟨he0, he1⟩ := hb e (Or.inr (Or.inr (Or.inr (Or.inr (Or.inl h5)))))
  obtain ⟨hf0, hf1⟩ := hb f (Or.inr (Or.inr (Or.inr (Or.inr (Or.inr h6)))))
  subst hs
  constructor <;> linarith

/-- Witness for C8 at a concrete row (all six inputs equal to 50). -/
theorem score_in_unit_interval_witness : (0 : ℚ) ≤ 50 ∧ (50 : ℚ) ≤ 100 :=
  score_in_unit_interval
    ⟨some 50, some 50, some 50, some 50, some 50, some 50⟩ 50
    (by norm_num [Avg_RSI_Breadth])
    (by
      intro v hv
      rcases hv with h | h | h | h | h | h <;>
        (simp only [Option.some.injEq] at h; subst h; norm_num))

/-! ## The displayed / exported table order (`app.py` lines 269–270, 383–412)

A row of `display_df` is modelled by its `Date` key (a natural number; the
code stores the date as an ISO `YYYY-MM-DD` string whose lexicographic order
agrees with chronological order) together with its remaining cells.
`display_df.sort_values('Date', ascending=False)` is a stable sort on the
`Date` key; it is modelled with insertion sort on the relation
"later or equal date first". `df_export` (the CSV download) is a
cell-formatted copy of `display_df` in the same row order. -/

/-- One row of `display_df`: the `Date` key and the remaining cells. -/
structure DisplayRow where
  date : ℕ
  cells : List (Option ℚ)

/-- The relation `display_df.sort_values('Date', ascending=False)` sorts by:
row `a` precedes row `b` when `b.date ≤ a.date`. -/
def dateDesc (a b : DisplayRow) : Prop := b.date ≤ a.date

instance : DecidableRel dateDesc := fun a b => Nat.decLe b.date a.date

instance : IsTotal DisplayRow dateDesc :=
  ⟨fun a b => (Nat.le_total b.date a.date).symm.symm⟩

instance : IsTrans DisplayRow dateDesc :=
  ⟨fun _ _ _ h1 h2 => Nat.le_trans h2 h1⟩

/-- Line 270 of `app.py`: `display_df = display_df.sort_values('Date',
ascending=False)`. -/
def sortDisplayByDate (rows : List DisplayRow) : List DisplayRow :=
  List.insertionSort dateDesc rows

/-- Line 385 of `app.py`: `df_export = display_df.copy()` — the exported table
keeps exactly the display table's rows and row order (cells are then
formatted in place, which does not move rows). -/
def exportRows (rows : List DisplayRow) : List DisplayRow := rows

/-- C2 counterexample: on a concrete two-row table with dates 1 and 2, the
table handed to display/export is NOT ascending by date. -/
theorem display_table_not_ascending :
    ¬ ((exportRows (sortDisplayByDate [⟨1, []⟩, ⟨2, []⟩])).map
        DisplayRow.date).Sorted (· ≤ ·) := by
  decide

/-- C2 amended: the output table handed to external presentation/export
collaborators has its rows ordered descending by date. -/
theorem display_table_sorted_descending (rows : List DisplayRow) :
    ((exportRows (sortDisplayByDate rows)).map DisplayRow.date).Sorted (· ≥ ·) := by
  have h : (sortDisplayByDate rows).Sorted dateDesc :=
    List.sorted_insertionSort dateDesc rows
  simpa [exportRows, List.Sorted, List.pairwise_map, dateDesc, GE.ge] using h

/-! ## Cell formatting for display and export (`app.py` lines 259–267, 387–404)

Each formatting lambda in the code has the shape
`lambda x: f"..." if pd.notna(x) else ""`: a `NaN` cell becomes the empty
string, a defined cell becomes a decimal rendering. The decimal renderings
are modelled digit by digit; rounding is modelled as round-half-up where
Python's float formatting uses round-half-even, a difference only at exact
ties which none of the claims depend on. -/

/-- The character of a decimal digit. -/
def digitChar (d : ℕ) : Char := Char.ofNat (48 + d % 10)

/-- The decimal digits of a natural number, most significant first. -/
def natChars (n : ℕ) : List Char :=
  if _h : n < 10 then [digitChar n]
  else natChars (n / 10) ++ [digitChar (n % 10)]
  termination_by n
  decreasing_by exact Nat.div_lt_self (by omega) (by omega)

theorem natChars_ne_nil (n : ℕ) : natChars n ≠ [] := by
  unfold natChars
  split
  · simp
  · simp

/-- Thousands grouping of a digit list (the `,` of Python's `{:,.0f}`):
walks the reversed digit list, inserting `,` after every three digits. -/
def commaAux : List Char → ℕ → List Char
  | [], _ => []
  | c :: cs, i =>
      c :: (if (i + 1) % 3 = 0 ∧ cs ≠ [] then ',' :: commaAux cs (i + 1)
            else commaAux cs (i + 1))

/-- Digits with thousands separators, most significant first. -/
def withCommas (l : List Char) : List Char :=
  (commaAux l.reverse 0).reverse

theorem withCommas_ne_nil {l : List Char} (h : l ≠ []) : withCommas l ≠ [] := by
  unfold withCommas
  obtain ⟨c, cs, hrev⟩ : ∃ c cs, l.reverse = c :: cs := by
    rcases hl : l.reverse with _ | ⟨c, cs⟩
    · exact absurd (by simpa using congrArg List.reverse hl) h
    · exact ⟨c, cs, rfl⟩
  rw [hrev]
  simp [commaAux]

/-- Truncation toward zero, Python's `int(x)` on a non-integral value. -/
def trunc (x : ℚ) : ℤ := if 0 ≤ x then ⌊x⌋ else ⌈x⌉

/-- The sign prefix and decimal digits of an integer. -/
def intChars (i : ℤ) : List Char :=
  if i < 0 then '-' :: natChars i.natAbs else natChars i.natAbs

theorem intChars_ne_nil (i : ℤ) : intChars i ≠ [] := by
  unfold intChars
  split
  · simp
  · exact natChars_ne_nil _

/-- Rendering of `f"{x:.1f}"`: sign, integer digits, a decimal point and one decimal
digit, after rounding `x` to one decimal place. -/
def fixed1Chars (x : ℚ) : List Char :=
  let n : ℤ := round (x * 10)
  (if n < 0 then ['-'] else []) ++
    natChars (n.natAbs / 10) ++ '.' :: natChars (n.natAbs % 10)

theorem fixed1Chars_ne_nil (x : ℚ) : fixed1Chars x ≠ [] := by
  unfold fixed1Chars
  simp

/-- The lambda `f"{x:.1f}" if pd.notna(x) else ""` (`app.py` lines 288, 324,
392: the one-decimal numeric export columns). -/
def fmtFixed1 : Option ℚ → String
  | none => ""
  | some x => String.mk (fixed1Chars x)

/-- The lambda `f"{x:.1f}%" if pd.notna(x) else ""` (`app.py` lines 294, 330,
398: the percentage export columns). -/
def fmtPercent1 : Option ℚ → String
  | none => ""
  | some x => String.mk (fixed1Chars x ++ ['%'])

/-- The lambda `f"{int(x)}" if pd.notna(x) else ""` (`app.py` line 404: the
integer export columns). -/
def fmtInt : Option ℚ → String
  | none => ""
  | some x => String.mk (intChars (trunc x))

/-- The lambda `f"{x/1000000000:,.0f}" if pd.notna(x) else ""` (`app.py`
lines 261–267: the MFI display columns, rendered in billions with
thousands separators and no decimals). -/
def fmtBillions : Option ℚ → String
  | none => ""
  | some x =>
      let n : ℤ := round (x / 1000000000)
      String.mk ((if n < 0 then ['-'] else []) ++ withCommas (natChars n.natAbs))

theorem string_mk_ne_empty {l : List Char} (h : l ≠ []) : String.mk l ≠ "" := by
  intro he
  exact h (congrArg String.data he)

/-- C3: an undefined cell is rendered by every display/export formatter as
the empty-string missing marker, and no defined value — in particular not
zero — renders as that marker, so the marker is distinguishable from `0`
and an undefined cell is never rendered as `0`. -/
theorem undefined_cells_render_as_blank_marker :
    (fmtFixed1 none = "" ∧ fmtPercent1 none = "" ∧
     fmtInt none = "" ∧ fmtBillions none = "") ∧
    (∀ v : ℚ, fmtFixed1 (some v) ≠ "" ∧ fmtPercent1 (some v) ≠ "" ∧
      fmtInt (some v) ≠ "" ∧ fmtBillions (some v) ≠ "") ∧
    (fmtFixed1 none ≠ fmtFixed1 (some 0) ∧ fmtPercent1 none ≠ fmtPercent1 (some 0) ∧
     fmtInt none ≠ fmtInt (some 0) ∧ fmtBillions none ≠ fmtBillions (some 0)) ∧
    fmtFixed1 none ≠ "0" := by
  have hfix : ∀ v : ℚ, fmtFixed1 (some v) ≠ "" := fun v =>
    string_mk_ne_empty (fixed1Chars_ne_nil v)
  have hpct : ∀ v : ℚ, fmtPercent1 (some v) ≠ "" := fun v =>
    string_mk_ne_empty (by simp)
  have hint : ∀ v : ℚ, fmtInt (some v) ≠ "" := fun v =>
    string_mk_ne_empty (intChars_ne_nil _)
  have hbil : ∀ v : ℚ, fmtBillions (some v) ≠ "" := by
    intro v
    have h2 : fmtBillions (some v) =
        String.mk ((if (round (v / 1000000000) : ℤ) < 0 then ['-'] else []) ++
          withCommas (natChars (round (v / 1000000000)).natAbs)) := rfl
    rw [h2]
    exact string_mk_ne_empty (by simp [withCommas_ne_nil (natChars_ne_nil _)])
  refine ⟨⟨rfl, rfl, rfl, rfl⟩,
    fun v => ⟨hfix v, hpct v, hint v, hbil v⟩,
    ⟨(hfix 0).symm, (hpct 0).symm, (hint 0).symm, (hbil 0).symm⟩, ?_⟩
  decide

/-! ## The index loader (`src/modules/data_loader.py`, `load_vnindex_data`)

The loader tries two sources with two attempts each; each attempt either
raises / returns `None` (modelled `none`) or returns a data frame of
`(time, close)` rows. The first non-empty frame is kept; if every attempt
yields no data the loader raises `ValueError` (modelled `Except.error`).
The kept frame is given a percentage-change column (`pct_change() * 100`,
whose first entry is `NaN`) and is then sorted ascending by date. -/

/-- A row of the frame returned by `vnstock`'s `quote.history`. -/
structure FetchRow where
  time : ℕ
  close : ℚ
  deriving DecidableEq

/-- A row of the loader's result frame after renaming:
`(Ngày, Giá đóng cửa, % Thay đổi)`. -/
structure IndexRow where
  ngay : ℕ
  close : ℚ
  pctChange : Option ℚ

/-- Line 48: `df['Giá đóng cửa'].pct_change() * 100`; the first entry is
`NaN`; entry `t` is `(close[t] − close[t−1]) / close[t−1] × 100`. -/
def pctChangeCol : List ℚ → List (Option ℚ)
  | [] => []
  | c :: cs =>
      none :: List.zipWith (fun prev cur => some ((cur - prev) / prev * 100)) (c :: cs) cs

/-- Sorting relation of `df.sort_values('Ngày')` (line 51): ascending date. -/
def ngayAsc (a b : IndexRow) : Prop := a.ngay ≤ b.ngay

instance : DecidableRel ngayAsc := fun a b => Nat.decLe a.ngay b.ngay

instance : IsTotal IndexRow ngayAsc := ⟨fun a b => Nat.le_total a.ngay b.ngay⟩

instance : IsTrans IndexRow ngayAsc := ⟨fun _ _ _ => Nat.le_trans⟩

/-- Lines 38–51: rename the fetched columns, add the percentage-change
column, keep the three columns and sort ascending by date. -/
def processIndexFrame (df : List FetchRow) : List IndexRow :=
  List.insertionSort ngayAsc
    (List.zipWith (fun (r : FetchRow) p => IndexRow.mk r.time r.close p) df
      (pctChangeCol (df.map FetchRow.close)))

/-- Lines 20–33: the retry loop over `(source, attempt)` pairs keeps the
first fetched frame that is neither `None` nor empty. -/
def firstNonEmptyFetch : List (Option (List FetchRow)) → Option (List FetchRow)
  | [] => none
  | none :: fs => firstNonEmptyFetch fs
  | some [] :: fs => firstNonEmptyFetch fs
  | some (r :: rs) :: _ => some (r :: rs)

/-- Line 36: the `ValueError` message raised when no source returned data
(the Python message also interpolates the last caught error). -/
def noDataMessage : String := "No data returned from any source."

/-- The loader `load_vnindex_data`, parametrised by the outcome of each attempted
fetch: raises when every attempt yields no data, otherwise processes the
first non-empty frame. -/
def load_vnindex_data (fetches : List (Option (List FetchRow))) :
    Except String (List IndexRow) :=
  match firstNonEmptyFetch fetches with
  | none => Except.error noDataMessage
  | some df => Except.ok (processIndexFrame df)

theorem firstNonEmptyFetch_eq_none
    (fetches : List (Option (List FetchRow)))
    (h : ∀ f ∈ fetches, f = none ∨ f = some []) :
    firstNonEmptyFetch fetches = none := by
  induction fetches with
  | nil => rfl
  | cons f fs ih =>
      rcases h f (List.mem_cons_self f fs) with rfl | rfl <;>
        exact ih fun g hg => h g (List.mem_cons_of_mem _ hg)

/-- C4: if every attempted fetch yields no data (an exception or an empty
frame), the loader aborts with the descriptive `ValueError` instead of
producing a table. -/
theorem empty_index_aborts (fetches : List (Option (List FetchRow)))
    (h : ∀ f ∈ fetches, f = none ∨ f = some []) :
    load_vnindex_data fetches = Except.error noDataMessage := by
  unfold load_vnindex_data
  rw [firstNonEmptyFetch_eq_none fetches h]

/-- Witness for C4: four failed attempts (two exceptions, two empty
frames) make the loader abort. -/
theorem empty_index_aborts_witness :
    load_vnindex_data [none, some [], none, some []] = Except.error noDataMessage :=
  empty_index_aborts [none, some [], none, some []] (by decide)

theorem pctChangeCol_get?_succ :
    ∀ (closes : List ℚ) (i : ℕ) (prev cur : ℚ),
      closes.get? i = some prev → closes.get? (i + 1) = some cur →
      (pctChangeCol closes).get? (i + 1) = some (some ((cur - prev) / prev * 100)) := by
  intro closes
  induction closes with
  | nil => intro i prev cur hp _; simp at hp
  | cons c cs ih =>
      intro i prev cur hp hc
      match i with
      | 0 =>
          simp only [List.get?_cons_zero, Option.some.injEq] at hp
          subst hp
          simp only [List.get?_cons_succ] at hc
          match cs, hc with
          | c' :: cs', hc =>
              simp only [List.get?_cons_zero, Option.some.injEq] at hc
              subst hc
              rfl
      | i + 1 =>
          simp only [List.get?_cons_succ] at hp hc
          have hne : cs ≠ [] := by
            intro hnil; rw [hnil] at hp; simp at hp
          match cs, hne with
          | c' :: cs', _ =>
              have := ih i prev cur hp hc
              simpa [pctChangeCol] using this

/-- C5: in the percentage-change column derived from the index closes, the
value at each observation `t ≥ 1` equals
`(close[t] − close[t−1]) / close[t−1] × 100`, and the value at the first
observation is undefined (`NaN`). -/
theorem pct_change_formula (closes : List ℚ) (i : ℕ) (prev cur : ℚ)
    (hp : closes.get? i = some prev) (hc : closes.get? (i + 1) = some cur) :
    (pctChangeCol closes).get? (i + 1) = some (some ((cur - prev) / prev * 100)) ∧
    (pctChangeCol closes).get? 0 = some none := by
  refine ⟨pctChangeCol_get?_succ closes i prev cur hp hc, ?_⟩
  match closes, hp with
  | c :: cs, _ => rfl

/-- Witness for C5 at `closes = [10, 11]`: the second entry is
`(11 − 10) / 10 × 100` and the first is `NaN`. -/
theorem pct_change_formula_witness :
    (pctChangeCol [(10 : ℚ), 11]).get? 1 =
      some (some ((11 - 10) / 10 * 100)) ∧
    (pctChangeCol [(10 : ℚ), 11]).get? 0 = some none :=
  pct_change_formula [(10 : ℚ), 11] 0 10 11 rfl rfl

/-! ## Ordering of the loaded index series (C7) -/

theorem pctChangeCol_length (closes : List ℚ) :
    (pctChangeCol closes).length = closes.length := by
  cases closes with
  | nil => rfl
  | cons c cs =>
      simp only [pctChangeCol, List.length_cons, List.length_zipWith]
      omega

theorem zipWith_mk_map_ngay :
    ∀ (df : List FetchRow) (pct : List (Option ℚ)), df.length ≤ pct.length →
      (List.zipWith (fun (r : FetchRow) p => IndexRow.mk r.time r.close p) df pct).map
          IndexRow.ngay =
        df.map FetchRow.time := by
  intro df
  induction df with
  | nil => intro pct _; rfl
  | cons r rs ih =>
      intro pct hlen
      cases pct with
      | nil => simp at hlen
      | cons p ps =>
          simp only [List.zipWith_cons_cons, List.map_cons, List.cons.injEq]
          exact ⟨trivial, ih ps (by simpa using hlen)⟩

theorem processIndexFrame_dates_perm (df : List FetchRow) :
    ((processIndexFrame df).map IndexRow.ngay).Perm (df.map FetchRow.time) := by
  unfold processIndexFrame
  have hperm :=
    (List.perm_insertionSort ngayAsc
      (List.zipWith (fun (r : FetchRow) p => IndexRow.mk r.time r.close p) df
        (pctChangeCol (df.map FetchRow.close)))).map IndexRow.ngay
  rwa [zipWith_mk_map_ngay df _ (by rw [pctChangeCol_length, List.length_map])] at hperm

/-- C7 counterexample: a fetched frame with a duplicated date (date 5 twice)
passes through the loader unchanged — the consumed index series then has a
duplicate date and is not strictly ascending. -/
theorem index_series_duplicate_date :
    (load_vnindex_data [some [⟨5, 10⟩, ⟨5, 11⟩]]).map
        (fun rows => rows.map IndexRow.ngay) = Except.ok [5, 5] ∧
    ¬ ([5, 5] : List ℕ).Sorted (· < ·) ∧ ¬ ([5, 5] : List ℕ).Nodup :=
  ⟨rfl, by decide, by decide⟩

/-- C7 amended: the index series produced by the loader is sorted ascending
(non-strictly) by date; whenever the fetched frame's dates are pairwise
distinct, the series is strictly ascending with no duplicate dates. The
loader itself never deduplicates. -/
theorem index_series_sorted (fetches : List (Option (List FetchRow)))
    (df : List FetchRow) (rows : List IndexRow)
    (hf : firstNonEmptyFetch fetches = some df)
    (h : load_vnindex_data fetches = Except.ok rows) :
    (rows.map IndexRow.ngay).Sorted (· ≤ ·) ∧
    ((df.map FetchRow.time).Nodup →
      (rows.map IndexRow.ngay).Sorted (· < ·) ∧ (rows.map IndexRow.ngay).Nodup) := by
  have hrows : rows = processIndexFrame df := by
    unfold load_vnindex_data at h
    rw [hf] at h
    simpa using h.symm
  subst hrows
  have hle : ((processIndexFrame df).map IndexRow.ngay).Sorted (· ≤ ·) := by
    have hs : (processIndexFrame df).Sorted ngayAsc :=
      List.sorted_insertionSort ngayAsc _
    simpa [List.Sorted, List.pairwise_map, ngayAsc] using hs
  refine ⟨hle, fun hnd => ?_⟩
  have hnd' : ((processIndexFrame df).map IndexRow.ngay).Nodup :=
    ((processIndexFrame_dates_perm df).nodup_iff).mpr hnd
  exact ⟨hle.lt_of_le hnd', hnd'⟩

/-- Witness for C7's amended statement at a concrete fetched frame with
distinct dates 2 and 1: the loader's output dates are strictly ascending. -/
theorem index_series_sorted_witness :
    (([⟨1, 20, some (((20 : ℚ) - 10) / 10 * 100)⟩, ⟨2, 10, none⟩] : List IndexRow).map
        IndexRow.ngay).Sorted (· ≤ ·) ∧
    ((([⟨2, (10 : ℚ)⟩, ⟨1, 20⟩] : List FetchRow).map FetchRow.time).Nodup →
      (([⟨1, 20, some (((20 : ℚ) - 10) / 10 * 100)⟩, ⟨2, 10, none⟩] : List IndexRow).map
          IndexRow.ngay).Sorted (· < ·) ∧
      (([⟨1, 20, some (((20 : ℚ) - 10) / 10 * 100)⟩, ⟨2, 10, none⟩] : List IndexRow).map
          IndexRow.ngay).Nodup) :=
  index_series_sorted [some [⟨2, 10⟩, ⟨1, 20⟩]] [⟨2, 10⟩, ⟨1, 20⟩]
    [⟨1, 20, some (((20 : ℚ) - 10) / 10 * 100)⟩, ⟨2, 10, none⟩] rfl rfl

/-! ## Percentage change across the sort (C5)

Line 48 computes `pct_change()` on the frame in fetched row order, and
line 51's `sort_values('Ngày')` then reorders the rows, carrying the
already-computed percentage values with them. The loaded (sorted) series
therefore satisfies the per-observation formula only when the fetched frame
was already ascending by date. -/

theorem zipWith_mk_map_close :
    ∀ (df : List FetchRow) (pct : List (Option ℚ)), df.length ≤ pct.length →
      (List.zipWith (fun (r : FetchRow) p => IndexRow.mk r.time r.close p) df pct).map
          IndexRow.close =
        df.map FetchRow.close := by
  intro df
  induction df with
  | nil => intro pct _; rfl
  | cons r rs ih =>
      intro pct hlen
      cases pct with
      | nil => simp at hlen
      | cons p ps =>
          simp only [List.zipWith_cons_cons, List.map_cons, List.cons.injEq]
          exact ⟨trivial, ih ps (by simpa using hlen)⟩

theorem zipWith_mk_map_pct :
    ∀ (df : List FetchRow) (pct : List (Option ℚ)), pct.length ≤ df.length →
      (List.zipWith (fun (r : FetchRow) p => IndexRow.mk r.time r.close p) df pct).map
          IndexRow.pctChange =
        pct := by
  intro df
  induction df with
  | nil =>
      intro pct hlen
      cases pct with
      | nil => rfl
      | cons p ps => simp at hlen
  | cons r rs ih =>
      intro pct hlen
      cases pct with
      | nil => rfl
      | cons p ps =>
          simp only [List.zipWith_cons_cons, List.map_cons, List.cons.injEq]
          exact ⟨trivial, ih ps (by simpa using hlen)⟩

/-- C5 counterexample: on the out-of-order fetch `[(2, 10), (1, 20)]` the
loaded series is `[(1, 20, some 100), (2, 10, none)]`: its first
observation's percentage change is defined (not `NaN`), and its second
observation's is `NaN` rather than the formula value
`(10 − 20) / 20 × 100` — `pct_change` ran before the sort and its values
were carried along with the reordered rows. -/
theorem pct_change_misaligned_after_sort :
    load_vnindex_data [some [⟨2, 10⟩, ⟨1, 20⟩]] =
      Except.ok [⟨1, 20, some (((20 : ℚ) - 10) / 10 * 100)⟩, ⟨2, 10, none⟩] ∧
    (([⟨1, 20, some (((20 : ℚ) - 10) / 10 * 100)⟩, ⟨2, 10, none⟩] : List IndexRow).map
        IndexRow.pctChange).get? 0 ≠ some none ∧
    (([⟨1, 20, some (((20 : ℚ) - 10) / 10 * 100)⟩, ⟨2, 10, none⟩] : List IndexRow).map
        IndexRow.pctChange).get? 1 ≠
      some (some ((((10 : ℚ) - 20) / 20) * 100)) := by
  refine ⟨rfl, ?_, ?_⟩ <;> simp

/-- C5 amended: provided the fetched frame is already ascending by date,
the loaded index series' percentage change at each observation `t ≥ 1`
equals `(close[t] − close[t−1]) / close[t−1] × 100` and is undefined at the
first observation; in general the column is computed positionally on the
frame in fetched order, before the sort. -/
theorem pct_change_formula_on_sorted_fetch
    (fetches : List (Option (List FetchRow)))
    (df : List FetchRow) (rows : List IndexRow)
    (hf : firstNonEmptyFetch fetches = some df)
    (h : load_vnindex_data fetches = Except.ok rows)
    (hsorted : (df.map FetchRow.time).Sorted (· ≤ ·)) :
    (∀ (i : ℕ) (prev cur : ℚ),
      (rows.map IndexRow.close).get? i = some prev →
      (rows.map IndexRow.close).get? (i + 1) = some cur →
      (rows.map IndexRow.pctChange).get? (i + 1) =
        some (some ((cur - prev) / prev * 100))) ∧
    (∀ r0, rows.get? 0 = some r0 → r0.pctChange = none) := by
  have hlen : (pctChangeCol (df.map FetchRow.close)).length = df.length := by
    rw [pctChangeCol_length, List.length_map]
  have hrows : rows =
      List.zipWith (fun (r : FetchRow) p => IndexRow.mk r.time r.close p) df
        (pctChangeCol (df.map FetchRow.close)) := by
    have h1 : rows = processIndexFrame df := by
      unfold load_vnindex_data at h
      rw [hf] at h
      simpa using h.symm
    have hm : ((List.zipWith (fun (r : FetchRow) p => IndexRow.mk r.time r.close p) df
        (pctChangeCol (df.map FetchRow.close))).map IndexRow.ngay).Sorted (· ≤ ·) := by
      rw [zipWith_mk_map_ngay df _ (le_of_eq hlen.symm)]
      exact hsorted
    have hs : (List.zipWith (fun (r : FetchRow) p => IndexRow.mk r.time r.close p) df
        (pctChangeCol (df.map FetchRow.close))).Sorted ngayAsc := by
      have := List.pairwise_map.mp hm
      simpa [ngayAsc] using this
    rw [h1]
    unfold processIndexFrame
    exact hs.insertionSort_eq
  subst hrows
  constructor
  · intro i prev cur hp hc
    rw [zipWith_mk_map_close df _ (le_of_eq hlen.symm)] at hp hc
    rw [zipWith_mk_map_pct df _ (le_of_eq hlen)]
    exact pctChangeCol_get?_succ (df.map FetchRow.close) i prev cur hp hc
  · intro r0 h0
    cases df with
    | nil => simp [pctChangeCol] at h0
    | cons d ds =>
        simp only [List.map_cons, pctChangeCol, List.zipWith_cons_cons,
          List.get?_cons_zero, Option.some.injEq] at h0
        rw [← h0]

/-- Witness for C5's amended statement at the already-ascending fetch
`[(1, 10), (2, 20)]`, whose loaded series is
`[(1, 10, NaN), (2, 20, (20 − 10) / 10 × 100)]`. -/
theorem pct_change_on_sorted_fetch_witness :
    (∀ (i : ℕ) (prev cur : ℚ),
      (([⟨1, 10, none⟩, ⟨2, 20, some (((20 : ℚ) - 10) / 10 * 100)⟩] :
          List IndexRow).map IndexRow.close).get? i = some prev →
      (([⟨1, 10, none⟩, ⟨2, 20, some (((20 : ℚ) - 10) / 10 * 100)⟩] :
          List IndexRow).map IndexRow.close).get? (i + 1) = some cur →
      (([⟨1, 10, none⟩, ⟨2, 20, some (((20 : ℚ) - 10) / 10 * 100)⟩] :
          List IndexRow).map IndexRow.pctChange).get? (i + 1) =
        some (some ((cur - prev) / prev * 100))) ∧
    (∀ r0, ([⟨1, 10, none⟩, ⟨2, 20, some (((20 : ℚ) - 10) / 10 * 100)⟩] :
        List IndexRow).get? 0 = some r0 → r0.pctChange = none) :=
  pct_change_formula_on_sorted_fetch [some [⟨1, 10⟩, ⟨2, 20⟩]]
    [⟨1, 10⟩, ⟨2, 20⟩]
    [⟨1, 10, none⟩, ⟨2, 20, some (((20 : ℚ) - 10) / 10 * 100)⟩]
    rfl rfl (by decide)

/-! ## The stock panel loader (`src/modules/data_loader.py`,
`load_price_volume_data`)

The four downloaded CSV frames are parameters; the loader concatenates
them, keeps only rows whose `symbol` is in the hard-coded 200-ticker list,
derives `Matching Value = close × volume`, renames the columns and sorts by
`(TICKER, Trading Date)`. -/

/-- One row of a downloaded CSV file: `(symbol, date, close, volume)`. -/
structure StockIn where
  symbol : String
  date : ℕ
  close : ℚ
  volume : ℚ
  deriving DecidableEq

/-- One row of the stock panel after renaming:
`(TICKER, Trading Date, Daily Closing Price, Matching Volume, Matching Value)`. -/
structure StockRow where
  ticker : String
  tradingDate : ℕ
  dailyClosingPrice : ℚ
  matchingVolume : ℚ
  matchingValue : ℚ
  deriving DecidableEq

/-- Lines 58–77 of `data_loader.py`: the hard-coded list of 200 tickers kept
in the panel. -/
def stock_list_200 : List String :=
  ["AAA", "ACB", "ACG", "AGG", "AGR", "ANV", "APG", "ASM", "AST", "BAF",
   "BBC", "BCG", "BCM", "BFC", "BHN", "BIC", "BID", "BMI", "BMP", "BSI",
   "BSR", "BVH", "BWE", "CHP", "CII", "CKG", "CMG", "CRE", "CRV", "CSV",
   "CTD", "CTF", "CTG", "CTR", "CTS", "DBC", "DBD", "DCL", "DCM", "DGC",
   "DGW", "DHC", "DHG", "DIG", "DMC", "DPG", "DPM", "DPR", "DRC", "DSC",
   "DSE", "DVP", "DXG", "DXS", "EIB", "ELC", "EVF", "EVG", "FCN", "FMC",
   "FPT", "FRT", "FTS", "GAS", "GEE", "GEG", "GEX", "GIL", "GMD", "GVR",
   "HAG", "HAH", "HCM", "HDB", "HDC", "HDG", "HHS", "HHV", "HNA", "HPG",
   "HQC", "HSG", "HT1", "HTG", "HVN", "IDI", "IJC", "IMP", "KBC", "KDC",
   "KDH", "KHG", "KOS", "KSB", "LCG", "LGC", "LIX", "LPB", "MBB", "MCM",
   "MIG", "MSB", "MSH", "MSN", "MWG", "NAB", "NAF", "NBB", "NCT", "NKG",
   "NLG", "NT2", "NTC", "NTL", "NVL", "OCB", "ORS", "PAN", "PC1", "PDN",
   "PDR", "PET", "PGD", "PGI", "PGV", "PHR", "PLX", "PNJ", "POW", "PPC",
   "PTB", "PVD", "PVT", "QCG", "RAL", "REE", "SAB", "SAM", "SBA", "SBT",
   "SCR", "SCS", "SGN", "SGT", "SHB", "SHI", "SHP", "SIP", "SJS", "SSB",
   "SSI", "STB", "STG", "STK", "SVC", "SZC", "TAL", "TBC", "TCB", "TCH",
   "TCM", "TCX", "TDM", "TDP", "TLG", "TMP", "TMS", "TNH", "TPB", "TRA",
   "TRC", "TTA", "TV2", "TVS", "VAB", "VCB", "VCF", "VCG", "VCI", "VDS",
   "VFG", "VGC", "VHC", "VHM", "VIB", "VIC", "VIX", "VJC", "VND", "VNM",
   "VOS", "VPB", "VPD", "VPI", "VPL", "VRE", "VSC", "VSH", "VTP", "YEG"]

/-- Sorting relation of `df.sort_values(['TICKER', 'Trading Date'])`
(line 115): lexicographic on ticker then date. -/
def tickerDateAsc (a b : StockRow) : Prop :=
  a.ticker < b.ticker ∨ (a.ticker = b.ticker ∧ a.tradingDate ≤ b.tradingDate)

instance : DecidableRel tickerDateAsc := fun _ _ =>
  inferInstanceAs (Decidable (_ ∨ _))

instance : IsTotal StockRow tickerDateAsc := by
  constructor
  intro a b
  rcases lt_trichotomy a.ticker b.ticker with h | h | h
  · exact Or.inl (Or.inl h)
  · rcases Nat.le_total a.tradingDate b.tradingDate with hd | hd
    · exact Or.inl (Or.inr ⟨h, hd⟩)
    · exact Or.inr (Or.inr ⟨h.symm, hd⟩)
  · exact Or.inr (Or.inl h)

instance : IsTrans StockRow tickerDateAsc := by
  constructor
  intro a b c hab hbc
  rcases hab with h1 | ⟨h1, d1⟩
  · rcases hbc with h2 | ⟨h2, _⟩
    · exact Or.inl (lt_trans h1 h2)
    · exact Or.inl (h2 ▸ h1)
  · rcases hbc with h2 | ⟨h2, d2⟩
    · exact Or.inl (h1 ▸ h2)
    · exact Or.inr ⟨h1.trans h2, Nat.le_trans d1 d2⟩

/-- The loader `load_price_volume_data`, parametrised by the four downloaded CSV
frames: concatenate (line 95), filter to the 200-ticker list (line 98),
derive `Matching Value = close × volume` (line 104), rename (lines 107–112)
and sort by `(TICKER, Trading Date)` (line 115). -/
def load_price_volume_data (files : List (List StockIn)) : List StockRow :=
  List.insertionSort tickerDateAsc
    ((files.flatten.filter (fun r => r.symbol ∈ stock_list_200)).map
      (fun r => StockRow.mk r.symbol r.date r.close r.volume (r.close * r.volume)))

/-- C6: every row of the stock panel has
`matching_value = closing_price × volume`. -/
theorem matching_value_eq_close_mul_volume
    (files : List (List StockIn)) (r : StockRow)
    (h : r ∈ load_price_volume_data files) :
    r.matchingValue = r.dailyClosingPrice * r.matchingVolume := by
  rw [load_price_volume_data, List.mem_insertionSort, List.mem_map] at h
  obtain ⟨a, _, rfl⟩ := h
  rfl

/-- Witness for C6 at a one-row file for ticker AAA with close 2 and
volume 3. -/
theorem matching_value_witness :
    (StockRow.mk "AAA" 1 2 3 (2 * 3)).matchingValue =
      (StockRow.mk "AAA" 1 2 3 (2 * 3)).dailyClosingPrice *
        (StockRow.mk "AAA" 1 2 3 (2 * 3)).matchingVolume :=
  matching_value_eq_close_mul_volume [[⟨"AAA", 1, 2, 3⟩]]
    (StockRow.mk "AAA" 1 2 3 (2 * 3))
    (by
      rw [show load_price_volume_data [[⟨"AAA", 1, 2, 3⟩]] =
            [StockRow.mk "AAA" 1 2 3 (2 * 3)] from rfl]
      exact List.mem_singleton_self _)

/-- C9: every row of the stock panel has a ticker from the fixed hard-coded
list of 200 symbols (rows of the source files for any other symbol are
excluded), and the panel is sorted ascending by (ticker, date). -/
theorem stock_panel_tickers_and_order (files : List (List StockIn)) :
    (∀ r ∈ load_price_volume_data files, r.ticker ∈ stock_list_200) ∧
    (load_price_volume_data files).Sorted tickerDateAsc ∧
    stock_list_200.length = 200 := by
  refine ⟨?_, List.sorted_insertionSort tickerDateAsc _, rfl⟩
  intro r hr
  rw [load_price_volume_data, List.mem_insertionSort, List.mem_map] at hr
  obtain ⟨a, ha, rfl⟩ := hr
  have := List.of_mem_filter ha
  simpa using this

/-! ## The Google Docs uploader (`src/modules/google_docs_uploader.py`,
`upload_to_google_doc`)

The function's external effects are modelled by an environment giving the
outcome of each Google API call, and the function returns the boolean the
Python code returns together with the trace of completed mutating effects.
The Python function's body is wrapped in `try/except: return False`, and
each helper catches its own exceptions, which the model reflects by being a
total function into `Bool`. -/

/-- Outcomes of the Google API calls `upload_to_google_doc` makes:
`services` — whether `get_services` yields both services (lines 14–45);
`findResult` — the document id `find_doc_by_name` returns, `none` both when
no document matches and when the search errors (lines 48–75);
`deleteOk` — whether `delete_doc_by_id` succeeds on a given id, `true` also
on a 404 (lines 78–97);
`createResult` — the id `create_new_doc` returns, `none` on error
(lines 100–131);
`insertOk` — whether `insert_table_with_data` succeeds on a given id
(lines 134–266). -/
structure DocsEnv where
  services : Bool
  findResult : Option String
  deleteOk : String → Bool
  createResult : Option String
  insertOk : String → Bool

/-- A completed mutating effect of the uploader. -/
inductive DocEvent where
  | deleted (id : String)
  | createdDoc (id : String)
  | insertedTable (id : String)
  deriving DecidableEq

/-- The function `upload_to_google_doc` (lines 269–311): find any existing document of
the same name, attempt to delete it (on failure only warn and continue),
create a new document, insert the table; `false` as soon as the services,
the creation or the insertion fail. Returns the Python boolean and the
trace of completed mutating effects. -/
def upload_to_google_doc (env : DocsEnv) : Bool × List DocEvent :=
  if env.services = false then (false, [])
  else
    match env.findResult with
    | some oldId =>
        (if env.deleteOk oldId then [DocEvent.deleted oldId] else []) |> fun ev1 =>
          match env.createResult with
          | none => (false, ev1)
          | some newId =>
              if env.insertOk newId then
                (true, ev1 ++ [DocEvent.createdDoc newId, DocEvent.insertedTable newId])
              else (false, ev1 ++ [DocEvent.createdDoc newId])
    | none =>
        match env.createResult with
        | none => (false, [])
        | some newId =>
            if env.insertOk newId then
              (true, [DocEvent.createdDoc newId, DocEvent.insertedTable newId])
            else (false, [DocEvent.createdDoc newId])

/-- C10 counterexample: when an existing document is found but its deletion
fails, the code continues anyway; with creation and insertion succeeding it
returns `True` although the old document was never deleted. -/
theorem upload_true_without_deleting_old_doc :
    (upload_to_google_doc
      ⟨true, some "old", fun _ => false, some "new", fun _ => true⟩).1 = true ∧
    DocEvent.deleted "old" ∉
      (upload_to_google_doc
        ⟨true, some "old", fun _ => false, some "new", fun _ => true⟩).2 ∧
    (⟨true, some "old", fun _ => false, some "new", fun _ => true⟩ :
      DocsEnv).findResult = some "old" := by
  refine ⟨rfl, ?_, rfl⟩
  decide

/-- C10 amended: `upload_to_google_doc` always returns a boolean (the model
is a total function, reflecting the enclosing `try/except`); it returns
`False` when the API services cannot be built, when the new document cannot
be created, or when the table insertion fails, and `True` exactly when the
services build, the document is created and the table insertion succeeds.
When an existing document of the same name is found, its deletion is
attempted before creation and a successful deletion is recorded, but a
failed deletion does not prevent the upload from returning `True`. -/
theorem upload_to_google_doc_spec (env : DocsEnv) :
    ((upload_to_google_doc env).1 = true ↔
      env.services = true ∧
      ∃ newId, env.createResult = some newId ∧ env.insertOk newId = true) ∧
    (∀ oldId, env.services = true → env.findResult = some oldId →
      env.deleteOk oldId = true →
      DocEvent.deleted oldId ∈ (upload_to_google_doc env).2) ∧
    ((upload_to_google_doc env).1 = true →
      ∀ newId, env.createResult = some newId →
        DocEvent.insertedTable newId ∈ (upload_to_google_doc env).2) := by
  obtain ⟨sv, fr, delOk, cr, insOk⟩ := env
  cases sv <;> cases fr <;> cases cr <;>
    simp_all [upload_to_google_doc] <;>
    split_ifs <;> simp_all

end Breadth
